import Mathlib

/-!
Verification development for the simiir-studio simulation supervisor.

The definitions below are a shallow embedding of the Python sources:
  * src/simiir_api/models/simulation.py   (data model)
  * src/simiir_api/utils/xml_config_manager.py  (XMLConfigManager)
  * src/simiir_api/services/simulation_manager.py (SimulationManager)
  * src/simiir_api/config.py  (Settings)
  * src/simiir_api/main.py    (lifespan startup)

Conventions of the embedding:
  * Database rows become Lean structure values; a commit is modelled by
    returning the updated state.  An operation returns the state as it is
    persisted at the moment the operation finishes or raises, together with
    the list of OS signals it sent and an `Except` result.
  * Timestamps are abstract `Nat` clock values supplied by the caller.
  * Python float division followed by `int(...)` on non-negative values is
    modelled by exact natural-number division (truncation = floor).
  * The in-memory registry `running_simulations` (dict id -> Popen) and
    `simulation_tasks` (dict id -> Task) are modelled by their key lists.
  * Outcomes of the external process (exiting within the grace period,
    signal delivery failing with e.g. ProcessLookupError) are inputs.
-/

namespace SimiirStudio

/-- Simulation status enum, from models/simulation.py `SimulationStatus`. -/
inductive SimulationStatus
  | pending
  | running
  | paused
  | completed
  | failed
  | cancelled
deriving DecidableEq, Repr

/-- A persisted simulation row, from models/simulation.py `Simulation`.
Column defaults: `current_iteration = 0`, `progress_percentage = 0`,
`total_iterations` nullable. -/
structure Simulation where
  id : String
  name : String
  status : SimulationStatus
  processId : Option Nat
  currentIteration : Nat
  totalIterations : Option Nat
  progressPercentage : Nat
  outputDirectory : String
  errorMessage : Option String
  startedAt : Option Nat
  completedAt : Option Nat
deriving DecidableEq, Repr

/-- A persisted checkpoint row, from models/simulation.py
`SimulationCheckpoint` (the claim-relevant columns). -/
structure Checkpoint where
  simulationId : String
  checkpointIteration : Nat
deriving DecidableEq, Repr

/-! ## XML configuration model, from utils/xml_config_manager.py

An lxml element tree is modelled by `XmlNode`: tag, attributes, text and
children.  `find('.//tag')` is a preorder search over the descendants of
the root; `find('tag')` and `findall('tag')` look at direct children. -/

/-- An XML element: tag, attribute list, optional text, children. -/
inductive XmlNode where
  | elem (tag : String) (attrs : List (String × String)) (text : Option String)
      (children : List XmlNode)

/-- The tag of an element. -/
def XmlNode.tagOf : XmlNode → String
  | .elem t _ _ _ => t

mutual

/-- The first element with the given tag in the subtree rooted at a node,
in document (preorder) order, the node itself checked first. -/
def findDescNode (tag : String) : XmlNode → Option XmlNode
  | .elem t a x cs =>
      if t = tag then some (.elem t a x cs) else findDescList tag cs

/-- `find('.//tag')` over a forest: the first element with the given tag
in document (preorder) order. -/
def findDescList (tag : String) : List XmlNode → Option XmlNode
  | [] => none
  | n :: rest =>
      match findDescNode tag n with
      | some m => some m
      | none => findDescList tag rest

end

mutual

/-- Rewrite, inside one subtree, the first element with the given tag in
preorder (the element `find('.//tag')` would return). -/
def replaceDescNode (tag : String) (f : XmlNode → XmlNode) : XmlNode → XmlNode
  | .elem t a x cs =>
      if t = tag then f (.elem t a x cs)
      else .elem t a x (replaceDescList tag f cs)

/-- In-place mutation of the element `find('.//tag')` would return:
rewrite the first element with the given tag in preorder, leaving the
forest unchanged when no such element exists. -/
def replaceDescList (tag : String) (f : XmlNode → XmlNode) :
    List XmlNode → List XmlNode
  | [] => []
  | n :: rest =>
      if (findDescNode tag n).isSome then replaceDescNode tag f n :: rest
      else n :: replaceDescList tag f rest

end

/-- A leaf element with only a tag and text, as built by
`etree.SubElement(parent, tag)` followed by `elem.text = txt`. -/
def mkTextElem (tag txt : String) : XmlNode :=
  .elem tag [] (some txt) []

/-- `XMLConfigManager.set_users`: `clear()` the `users` element (dropping
attributes, text and children, keeping the tag) and append a `<user>`
child per id.  The old contents do not survive. -/
def fillUsers (userIds : List String) : XmlNode → XmlNode :=
  fun _ => .elem "users" [] none (userIds.map (mkTextElem "user"))

/-- `XMLConfigManager.set_topics`, same shape as `set_users`. -/
def fillTopics (topicIds : List String) : XmlNode → XmlNode :=
  fun _ => .elem "topics" [] none (topicIds.map (mkTextElem "topic"))

/-- `set_users` on the whole document: mutate the first `users` descendant
of the root, if any. -/
def set_users (userIds : List String) : XmlNode → XmlNode
  | .elem t a x cs => .elem t a x (replaceDescList "users" (fillUsers userIds) cs)

/-- `set_topics` on the whole document. -/
def set_topics (topicIds : List String) : XmlNode → XmlNode
  | .elem t a x cs => .elem t a x (replaceDescList "topics" (fillTopics topicIds) cs)

/-- `elem.get(key)` on an attribute list. -/
def lookupAttr (attrs : List (String × String)) (key : String) : Option String :=
  (attrs.find? (fun p => p.1 = key)).map (fun p => p.2)

/-- `elem.set(key, v)` when the key is already present: replace its value. -/
def setAttr (attrs : List (String × String)) (key v : String) :
    List (String × String) :=
  attrs.map (fun p => if p.1 = key then (key, v) else p)

/-- `elem.find('tag')`: first direct child with the given tag. -/
def findChild (tag : String) : List XmlNode → Option XmlNode
  | [] => none
  | n :: rest => if n.tagOf = tag then some n else findChild tag rest

/-- Set the text of the first direct child with the given tag. -/
def setFirstChildText (tag txt : String) : List XmlNode → List XmlNode
  | [] => []
  | .elem t a x cs :: rest =>
      if t = tag then .elem t a (some txt) cs :: rest
      else .elem t a x cs :: setFirstChildText tag txt rest

/-- The mutation `set_output_directory` applies to the `output` element:
update the `directory` attribute when present, else the text of a
`directory` child when present, else append a new `directory` child. -/
def setOutputElem (dir : String) : XmlNode → XmlNode
  | .elem t a x cs =>
      match lookupAttr a "directory" with
      | some _ => .elem t (setAttr a "directory" dir) x cs
      | none =>
          match findChild "directory" cs with
          | some _ => .elem t a x (setFirstChildText "directory" dir cs)
          | none => .elem t a x (cs ++ [mkTextElem "directory" dir])

/-- `XMLConfigManager.set_output_directory` on the whole document. -/
def set_output_directory (dir : String) : XmlNode → XmlNode
  | .elem t a x cs => .elem t a x (replaceDescList "output" (setOutputElem dir) cs)

/-- `XMLConfigManager.validate`: every required section (`users`, `topics`,
`output`) must occur somewhere in the document. -/
def validate (root : XmlNode) : Bool :=
  match root with
  | .elem _ _ _ cs =>
      ((findDescList "users" cs).isSome && (findDescList "topics" cs).isSome)
        && (findDescList "output" cs).isSome

/-! ## Supervisor state and operations, from services/simulation_manager.py -/

/-- `Settings.max_concurrent_simulations` (config.py, default 3). The
setting is declared but never consulted by `SimulationManager`. -/
def max_concurrent_simulations : Nat := 3

/-- The supervisor's state: the persisted simulation rows and checkpoint
rows, plus the two in-memory registries of `SimulationManager`
(`running_simulations`: ids with a registered live process handle;
`simulation_tasks`: ids with a registered monitoring task). -/
structure ManagerState where
  runs : List Simulation
  checkpoints : List Checkpoint
  runningSimulations : List String
  simulationTasks : List String
deriving DecidableEq, Repr

/-- `select(Simulation).where(Simulation.id == simulation_id)` followed by
`scalar_one_or_none()`. -/
def findRun (runs : List Simulation) (simId : String) : Option Simulation :=
  runs.find? (fun s => s.id = simId)

/-- Persisting a mutated row: replace the row with the same id. -/
def setRun (runs : List Simulation) (sim : Simulation) : List Simulation :=
  runs.map (fun s => if s.id = sim.id then sim else s)

/-- The `ValueError`s raised by the control operations, plus the OS error a
failed `os.killpg` raises. -/
inductive ControlError
  | notFound (simId : String)
  | alreadyRunning (simId : String)
  | notRunning (simId : String)
  | notPaused (simId : String)
  | notRunningOrPaused (simId : String)
  | signalDelivery (simId : String)
deriving DecidableEq, Repr

/-- The OS signals the supervisor sends to the process group. -/
inductive Signal
  | sigstop
  | sigcont
  | sigterm
  | sigkill
deriving DecidableEq, Repr

/-- `SimulationManager.start_simulation`: raise when the id is unknown or
the run's status is `RUNNING`; otherwise set the status to `RUNNING`,
record `started_at`, commit, and register a monitoring task that will
spawn the worker process. -/
def start_simulation (st : ManagerState) (simId : String) (now : Nat) :
    ManagerState × Except ControlError Simulation :=
  match findRun st.runs simId with
  | none => (st, .error (.notFound simId))
  | some sim =>
      if sim.status = .running then (st, .error (.alreadyRunning simId))
      else
        let sim' := { sim with status := .running, startedAt := some now }
        ({ st with
            runs := setRun st.runs sim',
            simulationTasks := st.simulationTasks ++ [simId] },
          .ok sim')

/-- `SimulationManager.pause_simulation`: raise when the id is unknown or
the status is not `RUNNING`; otherwise, when `create_checkpoint` is set,
create and commit a checkpoint row first; then send `SIGSTOP` to the
process group when a process handle is registered (delivery may fail and
raise, after the checkpoint commit); finally set the status to `PAUSED`
and commit. -/
def pause_simulation (st : ManagerState) (simId : String)
    (createCheckpoint signalDeliveryFails : Bool) :
    ManagerState × List Signal × Except ControlError Simulation :=
  match findRun st.runs simId with
  | none => (st, [], .error (.notFound simId))
  | some sim =>
      if sim.status = .running then
        let st1 := if createCheckpoint then
            { st with checkpoints :=
                st.checkpoints ++ [⟨simId, sim.currentIteration⟩] }
          else st
        if simId ∈ st.runningSimulations then
          if signalDeliveryFails then
            (st1, [], .error (.signalDelivery simId))
          else
            let sim' := { sim with status := .paused }
            ({ st1 with runs := setRun st1.runs sim' }, [Signal.sigstop], .ok sim')
        else
          let sim' := { sim with status := .paused }
          ({ st1 with runs := setRun st1.runs sim' }, [], .ok sim')
      else (st, [], .error (.notRunning simId))

/-- `SimulationManager.resume_simulation`: raise when the id is unknown or
the status is not `PAUSED`; otherwise send `SIGCONT` to the process group
when a handle is registered (delivery may fail and raise), then set the
status to `RUNNING` and commit. -/
def resume_simulation (st : ManagerState) (simId : String)
    (signalDeliveryFails : Bool) :
    ManagerState × List Signal × Except ControlError Simulation :=
  match findRun st.runs simId with
  | none => (st, [], .error (.notFound simId))
  | some sim =>
      if sim.status = .paused then
        if simId ∈ st.runningSimulations then
          if signalDeliveryFails then
            (st, [], .error (.signalDelivery simId))
          else
            let sim' := { sim with status := .running }
            ({ st with runs := setRun st.runs sim' }, [Signal.sigcont], .ok sim')
        else
          let sim' := { sim with status := .running }
          ({ st with runs := setRun st.runs sim' }, [], .ok sim')
      else (st, [], .error (.notPaused simId))

/-- `SimulationManager.stop_simulation`: raise when the id is unknown or
the status is neither `RUNNING` nor `PAUSED`.  When a process handle is
registered: send `SIGTERM` to the process group, wait up to the 10 second
grace period (`process.wait(timeout=10)`), send `SIGKILL` when the wait
times out, and unregister the handle.  Cancel and unregister the
monitoring task when present.  In every successful case set the status to
`CANCELLED`, record `completed_at`, and commit.
`processExitsInGrace` says whether the process exits within the grace
period after `SIGTERM`. -/
def stop_simulation (st : ManagerState) (simId : String)
    (processExitsInGrace : Bool) (now : Nat) :
    ManagerState × List Signal × Except ControlError Simulation :=
  match findRun st.runs simId with
  | none => (st, [], .error (.notFound simId))
  | some sim =>
      if sim.status = .running ∨ sim.status = .paused then
        let signals :=
          if simId ∈ st.runningSimulations then
            if processExitsInGrace then [Signal.sigterm]
            else [Signal.sigterm, Signal.sigkill]
          else []
        let sim' := { sim with status := .cancelled, completedAt := some now }
        ({ st with
            runs := setRun st.runs sim',
            runningSimulations := st.runningSimulations.erase simId,
            simulationTasks := st.simulationTasks.erase simId },
          signals, .ok sim')
      else (st, [], .error (.notRunningOrPaused simId))

/-- The XML-processing part of `SimulationManager.create_simulation`:
apply the user override when the list is non-empty (`if users:`), then
the topic override (`if topics:`), then point the output section at the
run's resolved output directory. -/
def processConfig (template : XmlNode) (users topics : List String)
    (outputDir : String) : XmlNode :=
  let t1 := if users ≠ [] then set_users users template else template
  let t2 := if topics ≠ [] then set_topics topics t1 else t1
  set_output_directory outputDir t2

/-- `SimulationManager.create_simulation`: materialize the config artifact
and insert a new `PENDING` row with the column defaults.  No validation
of the template is performed and no error is raised for a template with
missing sections. -/
def create_simulation (template : XmlNode) (simId name : String)
    (users topics : List String) (outputDir : String) :
    Simulation × XmlNode :=
  let processed := processConfig template users topics outputDir
  ({ id := simId
     name := name
     status := .pending
     processId := none
     currentIteration := 0
     totalIterations := none
     progressPercentage := 0
     outputDirectory := outputDir
     errorMessage := none
     startedAt := none
     completedAt := none },
    processed)

/-! ### binary64 float arithmetic, for `_update_progress`

The progress percentage is computed by Python as
`min(100, int((current / total) * 100))`: a binary64 true division, a
binary64 multiplication by 100, and a truncation toward zero.  A binary64
value is a dyadic rational m / 2^k with 2^52 ≤ m < 2^53 (up to scaling),
and each operation rounds its exact rational result to the nearest such
value, ties to even.  The model below computes that rounding exactly on
dyadic fractions of naturals; subnormal underflow and overflow to
infinity lie outside the values arising here and are not modelled. -/

/-- Number of binary digits of a natural number (0 for 0), with an
explicit fuel argument so that it evaluates by kernel reduction. -/
def bitlenAux : ℕ → ℕ → ℕ
  | 0, _ => 0
  | fuel + 1, n => if n = 0 then 0 else bitlenAux fuel (n / 2) + 1

/-- Number of binary digits of a natural number: `bitlen n = log2 n + 1`
for positive `n`. -/
def bitlen (n : ℕ) : ℕ := bitlenAux n n

/-- Round n / d to the nearest integer, ties to even (d positive). -/
def rndNat (n d : ℕ) : ℕ :=
  let q := n / d
  let r := n % d
  if 2 * r < d then q
  else if d < 2 * r then q + 1
  else if q % 2 = 0 then q else q + 1

/-- IEEE-754 binary64 round-to-nearest (ties to even) of the non-negative
rational n / d, returned as an exact dyadic fraction (numerator,
power-of-two denominator).  The exponent e = floor(log2(n/d)) is located
from the bit lengths and one exact comparison; the 53-bit mantissa is the
correctly rounded integer `rndNat`. -/
def roundDoubleFrac (n d : ℕ) : ℕ × ℕ :=
  if n = 0 ∨ d = 0 then (0, 1)
  else
    let lengthN := bitlen n
    let lengthD := bitlen d
    let e : ℤ :=
      if d * 2 ^ lengthN ≤ n * 2 ^ lengthD then (lengthN : ℤ) - lengthD
      else (lengthN : ℤ) - lengthD - 1
    if e ≤ 52 then
      let f := (52 - e).toNat
      (rndNat (n * 2 ^ f) d, 2 ^ f)
    else
      let g := (e - 52).toNat
      (rndNat n (d * 2 ^ g) * 2 ^ g, 1)

/-- `min(100, int((current / total) * 100))` exactly as the program's
binary64 arithmetic computes it: round current/total to a double,
multiply by 100 and round the product to a double, truncate toward zero
(floor, as the values are non-negative), cap at 100. -/
def floatProgress (current total : ℕ) : ℕ :=
  let x := roundDoubleFrac current total
  let y := roundDoubleFrac (x.1 * 100) x.2
  min 100 (y.1 / y.2)

/-- `SimulationManager._update_progress`: set `current_iteration` to the
number of lines of the run's log file; when `total_iterations` is truthy
(non-null and non-zero) set `progress_percentage` to
`min(100, int((current / total) * 100))` in binary64 float arithmetic. -/
def update_progress (sim : Simulation) (logLineCount : Nat) : Simulation :=
  let sim1 := { sim with currentIteration := logLineCount }
  match sim1.totalIterations with
  | some total =>
      if total ≠ 0 then
        { sim1 with progressPercentage := floatProgress logLineCount total }
      else sim1
  | none => sim1

/-- One observed lifetime of `SimulationManager._monitor_simulation`: the
log file is opened with mode `"w"` (so it starts empty), and each loop
tick reads at most one line of worker output (`readline`), appends it to
the log when non-empty, and runs `_update_progress`, which writes
`current_iteration := `number of log lines.  `events` records, tick by
tick, whether a line was read; the result is the run row after each
update, in order. -/
def monitorSteps (sim : Simulation) (logLen : Nat) : List Bool → List Simulation
  | [] => []
  | lineRead :: rest =>
      let logLen' := logLen + (if lineRead then 1 else 0)
      let sim' := update_progress sim logLen'
      sim' :: monitorSteps sim' logLen' rest

/-- The monitoring loop's trace of run rows, starting from an empty log. -/
def monitor_trace (sim : Simulation) (events : List Bool) : List Simulation :=
  monitorSteps sim 0 events

/-- `lifespan` startup in main.py: it initializes the database schema
(`init_db` runs `Base.metadata.create_all`) and performs no pass over the
persisted simulation rows — modelled as the identity on the rows. -/
def lifespan_startup (persistedRuns : List Simulation) : List Simulation :=
  persistedRuns

/-- The supervisor state right after startup: `SimulationManager.__init__`
creates empty `running_simulations` and `simulation_tasks` registries,
and the persisted rows are whatever `lifespan` startup left. -/
def initialManager (persistedRuns : List Simulation) : ManagerState :=
  { runs := lifespan_startup persistedRuns
    checkpoints := []
    runningSimulations := []
    simulationTasks := [] }

/-! ## Concrete fixtures used to evaluate the operations -/

/-- A run that has already completed. -/
def simA : Simulation :=
  { id := "sim_a", name := "alpha", status := .completed, processId := none
    currentIteration := 4, totalIterations := none, progressPercentage := 0
    outputDirectory := "/out/sim_a", errorMessage := none
    startedAt := some 1, completedAt := some 2 }

/-- Supervisor state holding only the completed run. -/
def stCompleted : ManagerState :=
  { runs := [simA], checkpoints := [], runningSimulations := []
    simulationTasks := [] }

/-- A run whose persisted status is Running. -/
def simB : Simulation :=
  { id := "sim_b", name := "beta", status := .running, processId := some 41
    currentIteration := 7, totalIterations := none, progressPercentage := 0
    outputDirectory := "/out/sim_b", errorMessage := none
    startedAt := some 3, completedAt := none }

/-- A Running run with no registered process handle (orphaned). -/
def stOrphanRunning : ManagerState :=
  { runs := [simB], checkpoints := [], runningSimulations := []
    simulationTasks := [] }

/-- A Running run with a registered process handle and monitoring task. -/
def stLive : ManagerState :=
  { runs := [simB], checkpoints := [], runningSimulations := ["sim_b"]
    simulationTasks := ["sim_b"] }

/-- A Pending run waiting to be started. -/
def simPendingD : Simulation :=
  { id := "sim_d", name := "delta", status := .pending, processId := none
    currentIteration := 0, totalIterations := none, progressPercentage := 0
    outputDirectory := "/out/sim_d", errorMessage := none
    startedAt := none, completedAt := none }

/-- A Running run with the given id, for populating the registry. -/
def runningRun (simId : String) : Simulation :=
  { id := simId, name := simId, status := .running, processId := some 5
    currentIteration := 0, totalIterations := none, progressPercentage := 0
    outputDirectory := simId, errorMessage := none
    startedAt := some 0, completedAt := none }

/-- A supervisor already running `max_concurrent_simulations` processes,
with one more Pending run. -/
def stAtCap : ManagerState :=
  { runs := [runningRun "sim_1", runningRun "sim_2", runningRun "sim_3",
             simPendingD]
    checkpoints := []
    runningSimulations := ["sim_1", "sim_2", "sim_3"]
    simulationTasks := ["sim_1", "sim_2", "sim_3"] }

/-- A persisted Running run as left behind by a supervisor crash. -/
def simOrphan : Simulation :=
  { id := "sim_o", name := "omicron", status := .running, processId := some 77
    currentIteration := 12, totalIterations := none, progressPercentage := 0
    outputDirectory := "/out/sim_o", errorMessage := none
    startedAt := some 4, completedAt := none }

/-- A run with a known total-iteration target. -/
def simT : Simulation :=
  { id := "sim_t", name := "tau", status := .running, processId := some 9
    currentIteration := 1, totalIterations := some 8, progressPercentage := 0
    outputDirectory := "/out/sim_t", errorMessage := none
    startedAt := some 1, completedAt := none }

/-- A run with a known total-iteration target of 100. -/
def simH : Simulation :=
  { id := "sim_h", name := "eta", status := .running, processId := some 11
    currentIteration := 28, totalIterations := some 100, progressPercentage := 28
    outputDirectory := "/out/sim_h", errorMessage := none
    startedAt := some 1, completedAt := none }

/-- A config template missing the required `users` section. -/
def tmplMissingUsers : XmlNode :=
  .elem "simulation" [] none
    [.elem "topics" [] none [], .elem "output" [] none []]

/-- `_update_progress` always stores the observed log length as the new
`current_iteration`, whatever the totals branch does. -/
theorem update_progress_currentIteration (sim : Simulation) (n : Nat) :
    (update_progress sim n).currentIteration = n := by
  unfold update_progress
  cases h : sim.totalIterations with
  | none => simp [h]
  | some total => by_cases ht : total = 0 <;> simp [h, ht]

/-- A row found by id has that id. -/
theorem findRun_id (runs : List Simulation) (simId : String) (sim : Simulation)
    (h : findRun runs simId = some sim) : sim.id = simId := by
  have := List.find?_some h
  exact of_decide_eq_true this

/-- Replacing a found row makes the replacement the row found next,
provided the replacement keeps the id. -/
theorem findRun_setRun_self (runs : List Simulation) (simId : String)
    (sim sim' : Simulation) (h : findRun runs simId = some sim)
    (hid : sim'.id = simId) : findRun (setRun runs sim') simId = some sim' := by
  induction runs with
  | nil => simp [findRun] at h
  | cons s rest ih =>
      have hcons : setRun (s :: rest) sim'
          = (if s.id = sim'.id then sim' else s) :: setRun rest sim' := rfl
      by_cases hs : s.id = simId
      · have hrepl : (if s.id = sim'.id then sim' else s) = sim' :=
          if_pos (by rw [hid, hs])
        unfold findRun
        rw [hcons, hrepl]
        exact List.find?_cons_of_pos _ (by simp [hid])
      · have hfr : findRun rest simId = some sim := by
          have hstep : findRun (s :: rest) simId = findRun rest simId := by
            unfold findRun
            exact List.find?_cons_of_neg _ (by simp [hs])
          rw [hstep] at h
          exact h
        have hrepl : (if s.id = sim'.id then sim' else s) = s :=
          if_neg (by rw [hid]; exact hs)
        unfold findRun
        rw [hcons, hrepl, List.find?_cons_of_neg _ (by simp [hs])]
        exact ih hfr

/-- A node whose tag matches is found immediately by the preorder
search. -/
theorem findDescNode_self (tag : String) (n : XmlNode) (h : n.tagOf = tag) :
    findDescNode tag n = some n := by
  obtain ⟨t, a, x, cs⟩ := n
  simp only [XmlNode.tagOf] at h
  simp [findDescNode, h]

mutual

/-- Rewriting the first tagged element of a subtree makes the rewritten
element the one the search finds, provided the rewrite keeps the tag. -/
theorem replaceDesc_find_same_node (tag : String) (f : XmlNode → XmlNode)
    (u : XmlNode) (htag : (f u).tagOf = tag) :
    ∀ n : XmlNode, findDescNode tag n = some u →
      findDescNode tag (replaceDescNode tag f n) = some (f u)
  | .elem t a x c, hf => by
      by_cases htt : t = tag
      · have hu : XmlNode.elem t a x c = u := by
          simpa [findDescNode, htt] using hf
        rw [replaceDescNode, if_pos htt, hu]
        exact findDescNode_self tag (f u) htag
      · have hc : findDescList tag c = some u := by
          simpa [findDescNode, htt] using hf
        rw [replaceDescNode, if_neg htt]
        simpa [findDescNode, htt] using
          replaceDesc_find_same_list tag f u htag c hc

/-- Rewriting the first tagged element of a forest makes the rewritten
element the one the search finds, provided the rewrite keeps the tag. -/
theorem replaceDesc_find_same_list (tag : String) (f : XmlNode → XmlNode)
    (u : XmlNode) (htag : (f u).tagOf = tag) :
    ∀ cs : List XmlNode, findDescList tag cs = some u →
      findDescList tag (replaceDescList tag f cs) = some (f u)
  | [], hf => by simp [findDescList] at hf
  | n :: rest, hf => by
      cases hn : findDescNode tag n with
      | some m =>
          have hm : m = u := by simpa [findDescList, hn] using hf
          subst hm
          have hrepl := replaceDesc_find_same_node tag f m htag n hn
          simp [replaceDescList, hn, findDescList, hrepl]
      | none =>
          have hrest : findDescList tag rest = some u := by
            simpa [findDescList, hn] using hf
          have := replaceDesc_find_same_list tag f u htag rest hrest
          simp [replaceDescList, hn, findDescList, this]

end

mutual

/-- Rewriting the first `tag` element of a subtree does not change what a
search for a different tag `tg` finds, provided the rewritten element
contains no `tg` element (before or after the rewrite) and the first `tg`
element contains no `tag` element. -/
theorem replaceDesc_keep_node (tag tg : String) (f : XmlNode → XmlNode)
    (u : XmlNode) (hu1 : findDescNode tg u = none)
    (hu2 : findDescNode tg (f u) = none) :
    ∀ n : XmlNode, findDescNode tag n = some u →
      (∀ w, findDescNode tg n = some w → findDescNode tag w = none) →
      findDescNode tg (replaceDescNode tag f n) = findDescNode tg n
  | .elem t a x c, hf, hw => by
      by_cases htt : t = tag
      · have hu : XmlNode.elem t a x c = u := by
          simpa [findDescNode, htt] using hf
        rw [replaceDescNode, if_pos htt, hu, hu2, ← hu, ← hu1, hu]
      · have hc : findDescList tag c = some u := by
          simpa [findDescNode, htt] using hf
        by_cases htg : t = tg
        · exfalso
          have hself : findDescNode tg (.elem t a x c)
              = some (.elem t a x c) :=
            findDescNode_self tg _ (by simpa [XmlNode.tagOf] using htg)
          have := hw _ hself
          rw [findDescNode, if_neg htt, hc] at this
          exact Option.noConfusion this
        · have hw' : ∀ w, findDescList tg c = some w →
              findDescNode tag w = none := by
            intro w hcw
            exact hw w (by simpa [findDescNode, htg] using hcw)
          have := replaceDesc_keep_list tag tg f u hu1 hu2 c hc hw'
          rw [replaceDescNode, if_neg htt]
          simpa [findDescNode, htg] using this

/-- Rewriting the first `tag` element of a forest does not change what a
search for a different tag `tg` finds, under the same conditions. -/
theorem replaceDesc_keep_list (tag tg : String) (f : XmlNode → XmlNode)
    (u : XmlNode) (hu1 : findDescNode tg u = none)
    (hu2 : findDescNode tg (f u) = none) :
    ∀ cs : List XmlNode, findDescList tag cs = some u →
      (∀ w, findDescList tg cs = some w → findDescNode tag w = none) →
      findDescList tg (replaceDescList tag f cs) = findDescList tg cs
  | [], hf, _ => by simp [findDescList] at hf
  | n :: rest, hf, hw => by
      cases hn : findDescNode tag n with
      | some m =>
          have hm : m = u := by simpa [findDescList, hn] using hf
          subst hm
          have hw' : ∀ w, findDescNode tg n = some w →
              findDescNode tag w = none := by
            intro w hnw
            exact hw w (by simp [findDescList, hnw])
          have hkeep := replaceDesc_keep_node tag tg f m hu1 hu2 n hn hw'
          simp only [replaceDescList, hn, Option.isSome_some, if_true,
            ite_true]
          rw [findDescList, hkeep]
          rfl
      | none =>
          have hrest : findDescList tag rest = some u := by
            simpa [findDescList, hn] using hf
          cases hng : findDescNode tg n with
          | some w => simp [replaceDescList, hn, findDescList, hng]
          | none =>
              have hw' : ∀ w, findDescList tg rest = some w →
                  findDescNode tag w = none := by
                intro w hrw
                exact hw w (by simpa [findDescList, hng] using hrw)
              have := replaceDesc_keep_list tag tg f u hu1 hu2 rest hrest hw'
              simp [replaceDescList, hn, findDescList, hng, this]

end

/-- Along one monitoring loop, the trace of run rows has non-decreasing
`current_iteration`, and its first entry records at least the starting
log length. -/
theorem monitorSteps_chain (len : Nat) (events : List Bool) (sim : Simulation) :
    List.Chain' (fun a b => a.currentIteration ≤ b.currentIteration)
      (monitorSteps sim len events) ∧
    (∀ s, (monitorSteps sim len events).head? = some s →
      len ≤ s.currentIteration) := by
  induction events generalizing sim len with
  | nil => simp [monitorSteps]
  | cons e rest ih =>
      obtain ⟨ihc, ihh⟩ :=
        ih (len + if e then 1 else 0)
          (update_progress sim (len + if e then 1 else 0))
      constructor
      · simp only [monitorSteps]
        rw [List.chain'_cons']
        refine ⟨?_, ihc⟩
        intro b hb
        have hble := ihh b hb
        rw [update_progress_currentIteration]
        omega
      · intro s hs
        simp only [monitorSteps, List.head?_cons, Option.some.injEq] at hs
        subst hs
        rw [update_progress_currentIteration]
        omega

/-! ## Claim theorems -/

/-- Claim C1, counterexample: `start` on a run whose status is Completed
succeeds — `start_simulation` only rejects unknown ids and status
Running, so the claimed failure for every non-Pending status is false. -/
theorem c1_start_succeeds_on_completed :
    simA.status = SimulationStatus.completed ∧
    (start_simulation stCompleted "sim_a" 5).2
      = .ok { simA with status := .running, startedAt := some 5 } :=
  ⟨rfl, rfl⟩

/-- Claim C1 (amended): `start` fails with the not-found error exactly
when the id is unknown, and with the already-running error exactly when
the run's status is Running; for a run in any other status — including
Completed, Failed, Cancelled and Paused — it succeeds, marks the run
Running and registers a monitoring task. -/
theorem c1_start_guard (st : ManagerState) (simId : String) (now : Nat) :
    (findRun st.runs simId = none →
      start_simulation st simId now = (st, .error (.notFound simId))) ∧
    (∀ sim, findRun st.runs simId = some sim → sim.status = .running →
      start_simulation st simId now = (st, .error (.alreadyRunning simId))) ∧
    (∀ sim, findRun st.runs simId = some sim → sim.status ≠ .running →
      (start_simulation st simId now).2
        = .ok { sim with status := .running, startedAt := some now } ∧
      (start_simulation st simId now).1.simulationTasks
        = st.simulationTasks ++ [simId] ∧
      findRun (start_simulation st simId now).1.runs simId
        = some { sim with status := .running, startedAt := some now }) := by
  refine ⟨?_, ?_, ?_⟩
  · intro h
    simp [start_simulation, h]
  · intro sim h hs
    simp [start_simulation, h, hs]
  · intro sim h hs
    refine ⟨by simp [start_simulation, h, hs], by simp [start_simulation, h, hs], ?_⟩
    have hruns : (start_simulation st simId now).1.runs
        = setRun st.runs { sim with status := .running, startedAt := some now } := by
      simp [start_simulation, h, hs]
    rw [hruns]
    exact findRun_setRun_self st.runs simId sim _ h (findRun_id st.runs simId sim h)

/-- Witness for the amended C1 theorem: starting the concrete Completed
run `simA` succeeds. -/
theorem c1_start_guard_witness :
    (start_simulation stCompleted "sim_a" 5).2
      = .ok { simA with status := .running, startedAt := some 5 } ∧
    (start_simulation stCompleted "sim_a" 5).1.simulationTasks = ["sim_a"] ∧
    findRun (start_simulation stCompleted "sim_a" 5).1.runs "sim_a"
      = some { simA with status := .running, startedAt := some 5 } := by
  have h := (c1_start_guard stCompleted "sim_a" 5).2.2 simA rfl (by decide)
  exact ⟨h.1, h.2.1, h.2.2⟩

/-- Claim C2, counterexample: a run whose persisted status is Running but
which has no registered process handle: `stop` succeeds and ends in
Cancelled without sending any signal to any process group, contradicting
the claim that every Running or Paused run is sent a graceful-terminate
signal. -/
theorem c2_stop_without_handle_sends_no_signal :
    simB.status = SimulationStatus.running ∧
    stOrphanRunning.runningSimulations = [] ∧
    (stop_simulation stOrphanRunning "sim_b" true 7).2.1 = [] ∧
    (stop_simulation stOrphanRunning "sim_b" true 7).2.2
      = .ok { simB with status := .cancelled, completedAt := some 7 } :=
  ⟨rfl, rfl, rfl, rfl⟩

/-- Claim C2 (amended): for a Running or Paused run, `stop` sends SIGTERM
to the process group — followed by SIGKILL when the process does not
exit within the 10-second grace period — but only when a live process
handle is registered; with no registered handle it sends nothing.  In
every such case it unregisters the handle and monitoring task and leaves
the run Cancelled.  For an unknown id or any other status it fails and
leaves the state unchanged. -/
theorem c2_stop_behaviour (st : ManagerState) (simId : String)
    (processExitsInGrace : Bool) (now : Nat) :
    (∀ sim, findRun st.runs simId = some sim →
      sim.status = .running ∨ sim.status = .paused →
      ((simId ∈ st.runningSimulations →
          (stop_simulation st simId processExitsInGrace now).2.1
            = if processExitsInGrace then [Signal.sigterm]
              else [Signal.sigterm, Signal.sigkill]) ∧
       (simId ∉ st.runningSimulations →
          (stop_simulation st simId processExitsInGrace now).2.1 = []) ∧
       (stop_simulation st simId processExitsInGrace now).2.2
         = .ok { sim with status := .cancelled, completedAt := some now } ∧
       (stop_simulation st simId processExitsInGrace now).1.runningSimulations
         = st.runningSimulations.erase simId ∧
       (stop_simulation st simId processExitsInGrace now).1.simulationTasks
         = st.simulationTasks.erase simId ∧
       findRun (stop_simulation st simId processExitsInGrace now).1.runs simId
         = some { sim with status := .cancelled, completedAt := some now })) ∧
    (∀ sim, findRun st.runs simId = some sim →
      ¬(sim.status = .running ∨ sim.status = .paused) →
      stop_simulation st simId processExitsInGrace now
        = (st, [], .error (.notRunningOrPaused simId))) ∧
    (findRun st.runs simId = none →
      stop_simulation st simId processExitsInGrace now
        = (st, [], .error (.notFound simId))) := by
  refine ⟨?_, ?_, ?_⟩
  · intro sim h hstat
    refine ⟨?_, ?_, ?_, ?_, ?_, ?_⟩
    · intro hmem
      simp [stop_simulation, h, hstat, hmem]
    · intro hmem
      simp [stop_simulation, h, hstat, hmem]
    · simp [stop_simulation, h, hstat]
    · simp [stop_simulation, h, hstat]
    · simp [stop_simulation, h, hstat]
    · have hruns : (stop_simulation st simId processExitsInGrace now).1.runs
          = setRun st.runs { sim with status := .cancelled, completedAt := some now } := by
        simp [stop_simulation, h, hstat]
      rw [hruns]
      exact findRun_setRun_self st.runs simId sim _ h (findRun_id st.runs simId sim h)
  · intro sim h hstat
    simp [stop_simulation, h, hstat]
  · intro h
    simp [stop_simulation, h]

/-- Witness for the amended C2 theorem: stopping the live Running run
`simB` whose process ignores SIGTERM sends SIGTERM then SIGKILL and ends
Cancelled. -/
theorem c2_stop_behaviour_witness :
    (stop_simulation stLive "sim_b" false 7).2.1
      = [Signal.sigterm, Signal.sigkill] ∧
    (stop_simulation stLive "sim_b" false 7).2.2
      = .ok { simB with status := .cancelled, completedAt := some 7 } := by
  have h := (c2_stop_behaviour stLive "sim_b" false 7).1 simB rfl (Or.inl rfl)
  exact ⟨h.1 (by decide), h.2.2.1⟩

/-- Claim C3, code-bug evidence: `create_simulation` never calls
`XMLConfigManager.validate` — on a template missing the required `users`
section (`validate` returns false) it still creates a Pending run record
instead of failing with a config error. -/
theorem c3_create_skips_validation :
    validate tmplMissingUsers = false ∧
    (create_simulation tmplMissingUsers "sim_x" "x" ["u1"] ["303"] "/out/sim_x").1
      = { id := "sim_x", name := "x", status := .pending, processId := none
          currentIteration := 0, totalIterations := none, progressPercentage := 0
          outputDirectory := "/out/sim_x", errorMessage := none
          startedAt := none, completedAt := none } :=
  ⟨rfl, rfl⟩

/-- Claim C4, counterexample: `pause` with checkpoint_first on a live
Running run whose suspend-signal delivery fails raises an error, yet the
checkpoint row committed before the signal was attempted remains — the
persisted state is not identical to the state before the call. -/
theorem c4_pause_failure_keeps_checkpoint :
    (pause_simulation stLive "sim_b" true true).2.2
      = .error (.signalDelivery "sim_b") ∧
    (pause_simulation stLive "sim_b" true true).1.checkpoints
      = [{ simulationId := "sim_b", checkpointIteration := 7 }] ∧
    (pause_simulation stLive "sim_b" true true).1.checkpoints
      ≠ stLive.checkpoints := by
  refine ⟨rfl, rfl, by decide⟩

/-- Claim C4 (amended): a failing `start`, `stop` or `resume` leaves the
supervisor state exactly as it was; a failing `pause` leaves the runs,
the registries and the tasks unchanged, but may leave one newly
committed checkpoint row behind (when checkpoint_first was requested on
a Running run and the suspend signal then failed). -/
theorem c4_failure_atomicity (st : ManagerState) (simId : String) (now : Nat)
    (createCheckpoint signalDeliveryFails processExitsInGrace : Bool) :
    (∀ e, (start_simulation st simId now).2 = .error e →
        (start_simulation st simId now).1 = st) ∧
    (∀ e, (stop_simulation st simId processExitsInGrace now).2.2 = .error e →
        (stop_simulation st simId processExitsInGrace now).1 = st) ∧
    (∀ e, (resume_simulation st simId signalDeliveryFails).2.2 = .error e →
        (resume_simulation st simId signalDeliveryFails).1 = st) ∧
    (∀ e, (pause_simulation st simId createCheckpoint signalDeliveryFails).2.2
          = .error e →
        (pause_simulation st simId createCheckpoint signalDeliveryFails).1.runs
          = st.runs ∧
        (pause_simulation st simId createCheckpoint signalDeliveryFails).1.runningSimulations
          = st.runningSimulations ∧
        (pause_simulation st simId createCheckpoint signalDeliveryFails).1.simulationTasks
          = st.simulationTasks ∧
        ((pause_simulation st simId createCheckpoint signalDeliveryFails).1.checkpoints
            = st.checkpoints ∨
         ∃ c, (pause_simulation st simId createCheckpoint signalDeliveryFails).1.checkpoints
            = st.checkpoints ++ [c])) := by
  refine ⟨?_, ?_, ?_, ?_⟩
  · intro e he
    cases hf : findRun st.runs simId with
    | none => simp [start_simulation, hf]
    | some sim =>
        by_cases hs : sim.status = .running
        · simp [start_simulation, hf, hs]
        · simp [start_simulation, hf, hs] at he
  · intro e he
    cases hf : findRun st.runs simId with
    | none => simp [stop_simulation, hf]
    | some sim =>
        by_cases hs : sim.status = .running ∨ sim.status = .paused
        · simp [stop_simulation, hf, hs] at he
        · simp [stop_simulation, hf, hs]
  · intro e he
    cases hf : findRun st.runs simId with
    | none => simp [resume_simulation, hf]
    | some sim =>
        by_cases hs : sim.status = .paused
        · by_cases hm : simId ∈ st.runningSimulations
          · by_cases hd : signalDeliveryFails = true
            · simp [resume_simulation, hf, hs, hm, hd]
            · simp [resume_simulation, hf, hs, hm, hd] at he
          · simp [resume_simulation, hf, hs, hm] at he
        · simp [resume_simulation, hf, hs]
  · intro e he
    cases hf : findRun st.runs simId with
    | none =>
        refine ⟨?_, ?_, ?_, Or.inl ?_⟩ <;> simp [pause_simulation, hf]
    | some sim =>
        by_cases hs : sim.status = .running
        · by_cases hm : simId ∈ st.runningSimulations
          · by_cases hd : signalDeliveryFails = true
            · by_cases hcp : createCheckpoint = true
              · refine ⟨?_, ?_, ?_, Or.inr ⟨⟨simId, sim.currentIteration⟩, ?_⟩⟩ <;>
                  simp [pause_simulation, hf, hs, hm, hd, hcp]
              · refine ⟨?_, ?_, ?_, Or.inl ?_⟩ <;>
                  simp [pause_simulation, hf, hs, hm, hd, hcp]
            · simp [pause_simulation, hf, hs, hm, hd] at he
          · simp [pause_simulation, hf, hs, hm] at he
        · refine ⟨?_, ?_, ?_, Or.inl ?_⟩ <;> simp [pause_simulation, hf, hs]

/-- Witness for the amended C4 theorem: the failing concrete `pause`
leaves the runs unchanged and exactly one appended checkpoint. -/
theorem c4_failure_atomicity_witness :
    (pause_simulation stLive "sim_b" true true).1.runs = stLive.runs ∧
    ((pause_simulation stLive "sim_b" true true).1.checkpoints
        = stLive.checkpoints ∨
     ∃ c, (pause_simulation stLive "sim_b" true true).1.checkpoints
        = stLive.checkpoints ++ [c]) := by
  have h := (c4_failure_atomicity stLive "sim_b" 7 true true true).2.2.2
    (.signalDelivery "sim_b") rfl
  exact ⟨h.1, h.2.2.2⟩

/-- Claim C5, counterexample: at 29 log lines out of a total of 100 the
program stores 28 — `int((29/100) * 100)` is 28 in binary64 arithmetic,
because the double nearest 29/100 times 100 rounds to
28.999999999999996 — while the claimed exact formula
`min(100, floor(100 * 29 / 100))` gives 29. -/
theorem c5_float_progress_counterexample :
    (update_progress simH 29).progressPercentage = 28 ∧
    min 100 (100 * 29 / 100) = 29 ∧
    (update_progress simH 29).progressPercentage ≠ min 100 (100 * 29 / 100) := by
  exact ⟨by decide, by decide, by decide⟩

/-- Claim C5 (amended): a freshly created run has progress percentage 0;
`_update_progress` with a known positive total stores
`min(100, int((current / total) * 100))` computed in the program's
binary64 float arithmetic — which can fall below the exact
`min(100, floor(100 * current / total))` — and the stored value never
exceeds 100; with an unknown total the percentage is left unchanged
(hence 0 for runs created with no total). -/
theorem c5_progress_percentage (sim : Simulation) (n : Nat)
    (template : XmlNode) (simId nm outDir : String) (us ts : List String) :
    (create_simulation template simId nm us ts outDir).1.progressPercentage = 0 ∧
    (∀ total, sim.totalIterations = some total → 0 < total →
      (update_progress sim n).progressPercentage = floatProgress n total ∧
      (update_progress sim n).progressPercentage ≤ 100) ∧
    (sim.totalIterations = none →
      (update_progress sim n).progressPercentage = sim.progressPercentage) ∧
    (sim.progressPercentage ≤ 100 →
      (update_progress sim n).progressPercentage ≤ 100) := by
  refine ⟨rfl, ?_, ?_, ?_⟩
  · intro total ht hpos
    have hz : total ≠ 0 := Nat.pos_iff_ne_zero.mp hpos
    constructor
    · simp [update_progress, ht, hz]
    · simp only [update_progress, ht]
      simp only [hz, ne_eq, not_false_eq_true, if_true, ite_true]
      simp [floatProgress]
  · intro ht
    simp [update_progress, ht]
  · intro hle
    cases ht : sim.totalIterations with
    | none => simpa [update_progress, ht] using hle
    | some total =>
        by_cases hz : total = 0
        · simpa [update_progress, ht, hz] using hle
        · simp [update_progress, ht, hz, floatProgress]

/-- Witness for the amended C5 theorem at a run with total 8 and 3 log
lines, an input on which the float arithmetic is exact: the stored value
is `floatProgress 3 8 = 37 = floor(100 * 3 / 8)`. -/
theorem c5_progress_percentage_witness :
    (0 : Nat) < 8 ∧
    (update_progress simT 3).progressPercentage = floatProgress 3 8 ∧
    floatProgress 3 8 = 37 := by
  refine ⟨by decide, ?_, by decide⟩
  exact ((c5_progress_percentage simT 3 tmplMissingUsers "s" "s" "o" [] []).2.1
    8 rfl (by decide)).1

/-- Claim C6, code-bug evidence: supervisor startup performs no
reconciliation pass — a persisted Running run with no Registry entry is
left Running with no error message, not marked Failed with an
orphaned-after-restart message. -/
theorem c6_startup_no_reconciliation :
    (initialManager [simOrphan]).runningSimulations = [] ∧
    findRun (initialManager [simOrphan]).runs "sim_o" = some simOrphan ∧
    simOrphan.status = SimulationStatus.running ∧
    simOrphan.errorMessage = none :=
  ⟨rfl, rfl, rfl, rfl⟩

/-- Claim C7: along one observed lifetime of the monitoring loop, the
successive `current_iteration` values written by the progress updates
are non-decreasing. -/
theorem c7_current_iteration_monotone (sim : Simulation) (events : List Bool) :
    List.Chain' (fun a b => a.currentIteration ≤ b.currentIteration)
      (monitor_trace sim events) :=
  (monitorSteps_chain 0 events sim).1

/-- Claim C9, code-bug evidence: with the registry already holding
`max_concurrent_simulations` live processes, `start` on one more Pending
run still succeeds and registers another task — the configured cap is
never consulted and no resource-exhausted failure exists in the code. -/
theorem c9_start_ignores_cap :
    stAtCap.runningSimulations.length = max_concurrent_simulations ∧
    (start_simulation stAtCap "sim_d" 9).2
      = .ok { simPendingD with status := .running, startedAt := some 9 } ∧
    (start_simulation stAtCap "sim_d" 9).1.simulationTasks
      = ["sim_1", "sim_2", "sim_3", "sim_d"] :=
  ⟨rfl, rfl, rfl⟩

/-- Claim C10: whenever `stop` succeeds (the run was Running or Paused),
it records `completed_at` alongside the Cancelled status, even though
the run did not complete with exit code 0. -/
theorem c10_stop_sets_completed_at (st : ManagerState) (simId : String)
    (processExitsInGrace : Bool) (now : Nat) (sim : Simulation)
    (hfind : findRun st.runs simId = some sim)
    (hstat : sim.status = .running ∨ sim.status = .paused) :
    (stop_simulation st simId processExitsInGrace now).2.2
      = .ok { sim with status := .cancelled, completedAt := some now } ∧
    findRun (stop_simulation st simId processExitsInGrace now).1.runs simId
      = some { sim with status := .cancelled, completedAt := some now } := by
  constructor
  · simp [stop_simulation, hfind, hstat]
  · have hruns : (stop_simulation st simId processExitsInGrace now).1.runs
        = setRun st.runs { sim with status := .cancelled, completedAt := some now } := by
      simp [stop_simulation, hfind, hstat]
    rw [hruns]
    exact findRun_setRun_self st.runs simId sim _ hfind
      (findRun_id st.runs simId sim hfind)

/-- Witness for the C10 theorem at the concrete live Running run. -/
theorem c10_stop_sets_completed_at_witness :
    (stop_simulation stLive "sim_b" true 8).2.2
      = .ok { simB with status := .cancelled, completedAt := some 8 } :=
  (c10_stop_sets_completed_at stLive "sim_b" true 8 simB rfl (Or.inl rfl)).1

end SimiirStudio
